import Mathlib

/-!
# Nubia fingerprint sensor drivers: electrical lifecycle

A shallow embedding of
* `drivers/hwmon/nubia_sensors/gf3266/platform.c` (Goodix gf3266), and
* `drivers/hwmon/nubia_sensors/fpc1020/fpc1020_tee_qsee4.c` (FPC1020),

followed by theorems about the embedded functions.

Conventions of the embedding.

* A C function that mutates `*dev` and calls into the kernel becomes a Lean
  function that takes the structure and the trace of kernel calls made so far
  and returns the return value, the structure and the trace afterwards.
* What the kernel answers to a call is read from a `Host`.  Every answer may
  depend on the whole trace so far, so the same call may be answered
  differently at different times.
* `int` values are `Int`; no arithmetic is done on them, so no wrap-around
  occurs.  Conversions between `size_t`, `long` and `int` are explicit.
* Messages written to the kernel log (`pr_info`, `SENSOR_LOG_ERROR`,
  `FPC_LOG_*`) are not kernel state and are left out.
-/

namespace NubiaSensors

/-! ## Kernel vocabulary used by both drivers -/

/-- Modelled from the spec: errno `ENOMEM` of `errno-base.h`, a header that is
not among the sources under study, with its Linux value. -/
def ENOMEM : Int := 12

/-- Modelled from the spec: errno `ENODEV` of `errno-base.h`, with its Linux value;
the spec's `IdentityPoolExhausted` and `ConfigurationError`. -/
def ENODEV : Int := 19

/-- Modelled from the spec: errno `EINVAL` of `errno-base.h`, with its Linux value;
the spec's invalid-argument condition. -/
def EINVAL : Int := 22

/-- A kernel pointer, as the `unsigned long` it converts to (64 bits on msm8998). -/
structure Ptr where
  addr : Nat
deriving DecidableEq

/-- The null pointer. -/
def NULL : Ptr := ⟨0⟩

/-- Modelled from the spec: `MAX_ERRNO` of `linux/err.h`, the largest errno that
an error pointer encodes. -/
def MAX_ERRNO : Nat := 4095

/-- Modelled from the spec: `IS_ERR_VALUE` of `linux/err.h`, which is not among the
sources under study; an address in the last `MAX_ERRNO` values of the address
space carries an error. -/
def IS_ERR_VALUE (x : Nat) : Bool := decide (2 ^ 64 - MAX_ERRNO ≤ x % 2 ^ 64)

/-- Modelled from the spec: `IS_ERR` of `linux/err.h`. -/
def IS_ERR (p : Ptr) : Bool := IS_ERR_VALUE p.addr

/-- Modelled from the spec: `IS_ERR_OR_NULL` of `linux/err.h`, the test on every
handle the spec calls "unresolved". -/
def IS_ERR_OR_NULL (p : Ptr) : Bool := p.addr % 2 ^ 64 == 0 || IS_ERR_VALUE p.addr

/-- Conversion of an `unsigned long` to `long` (two's complement, 64 bits). -/
def to_long (x : Nat) : Int :=
  if x % 2 ^ 64 < 2 ^ 63 then ((x % 2 ^ 64 : Nat) : Int) else ((x % 2 ^ 64 : Nat) : Int) - 2 ^ 64

/-- Conversion of a `long` to `int` (two's complement, 32 bits). -/
def to_int (x : Int) : Int :=
  if x % 2 ^ 32 < 2 ^ 31 then x % 2 ^ 32 else x % 2 ^ 32 - 2 ^ 32

/-- Modelled from the spec: `PTR_ERR` of `linux/err.h`, the pointer read as a `long`. -/
def PTR_ERR (p : Ptr) : Int := to_long p.addr

/-- One call into the kernel, with its arguments and, where the call has one,
the value it returned. -/
inductive Event where
  | of_get_named_gpio (name : String) (ret : Int)
  | gpio_request (gpio : Int) (label : String) (ret : Int)
  | devm_gpio_request (gpio : Int) (label : String) (ret : Int)
  | gpio_free (gpio : Int)
  | gpio_direction_output (gpio : Int) (value : Int) (ret : Int)
  | gpio_direction_input (gpio : Int) (ret : Int)
  | gpio_set_value (gpio : Int) (value : Int)
  | udelay (us : Nat)
  | mdelay (ms : Nat)
  | regulator_enable (supply : Ptr) (ret : Int)
  | regulator_disable (supply : Ptr) (ret : Int)
  | devm_pinctrl_get (ret : Ptr)
  | pinctrl_lookup_state (p : Ptr) (name : String) (ret : Ptr)
  | pinctrl_select_state (p : Ptr) (state : Ptr) (ret : Int)
  | devm_kzalloc (ret : Ptr)
  | dev_set_drvdata (data : Ptr)
  | mutex_init
  | wake_lock_init (name : String)
  | class_create (name : String) (ret : Ptr)
  | device_create (cls : Ptr) (devt : Nat) (name : String) (ret : Ptr)
  | device_destroy (cls : Ptr) (devt : Nat)
  | class_destroy (cls : Ptr)
  | sysfs_create_group (ret : Int)
  | devm_request_threaded_irq (irq : Int) (ret : Int)
  | enable_irq_wake (irq : Int)
deriving DecidableEq

/-- The trace of kernel calls, oldest first. -/
abbrev Trace := List Event

/-- What the kernel answers.  The first argument of every field is the trace
of calls made before the one being answered. -/
structure Host where
  of_get_named_gpio : Trace → String → Int
  gpio_request : Trace → Int → String → Int
  devm_gpio_request : Trace → Int → String → Int
  gpio_direction_output : Trace → Int → Int → Int
  gpio_direction_input : Trace → Int → Int
  regulator_enable : Trace → Ptr → Int
  regulator_disable : Trace → Ptr → Int
  devm_pinctrl_get : Trace → Ptr
  pinctrl_lookup_state : Trace → Ptr → String → Ptr
  pinctrl_select_state : Trace → Ptr → Ptr → Int
  devm_kzalloc : Trace → Ptr
  class_create : Trace → String → Ptr
  device_create : Trace → Ptr → Nat → String → Ptr
  sysfs_create_group : Trace → Int
  devm_request_threaded_irq : Trace → Int → Int
  gpio_to_irq : Int → Int

/-! ## Goodix gf3266: `platform.c` -/

/-- Modelled from the spec: `struct gf_dev`, declared in `gf_spi.h`, which is not
among the sources under study.  The fields are those `platform.c` uses;
`power_on` is a boolean, as in the spec's data model. -/
structure gf_dev where
  reset_gpio : Int
  irq_gpio : Int
  power_on : Bool
  vdd : Ptr
deriving DecidableEq

/-- Modelled from the spec: `gpio_is_valid` of `asm-generic/gpio.h`, which is not
among the sources under study; a line number is valid when it lies in
`[0, ARCH_NR_GPIOS)`.  The bound is a parameter. -/
def gpio_is_valid (ARCH_NR_GPIOS : Nat) (number : Int) : Bool :=
  decide (0 ≤ number) && decide (number < (ARCH_NR_GPIOS : Int))

/-- Return value, device structure and trace after a call. -/
structure GfResult where
  rc : Int
  dev : gf_dev
  trace : Trace
deriving DecidableEq

/-- Embedding of `gf_parse_dts`. -/
def gf_parse_dts (ARCH_NR_GPIOS : Nat) (host : Host) (gf_dev0 : gf_dev) (tr0 : Trace) : GfResult :=
  -- get reset resource
  let reset := host.of_get_named_gpio tr0 "fp-gpio-reset"
  let d1 : gf_dev := { gf_dev0 with reset_gpio := reset }
  let tr1 := tr0 ++ [Event.of_get_named_gpio "fp-gpio-reset" reset]
  if !gpio_is_valid ARCH_NR_GPIOS d1.reset_gpio then
    ⟨-1, d1, tr1⟩
  else
    let rc1 := host.gpio_request tr1 d1.reset_gpio "goodix_reset"
    let tr2 := tr1 ++ [Event.gpio_request d1.reset_gpio "goodix_reset" rc1]
    if rc1 ≠ 0 then
      ⟨-1, d1, tr2⟩
    else
      let tr3 := tr2 ++ [Event.gpio_direction_output d1.reset_gpio 1
                          (host.gpio_direction_output tr2 d1.reset_gpio 1)]
      -- get irq resource
      let irq := host.of_get_named_gpio tr3 "fp-gpio-irq"
      let d2 : gf_dev := { d1 with irq_gpio := irq }
      let tr4 := tr3 ++ [Event.of_get_named_gpio "fp-gpio-irq" irq]
      if !gpio_is_valid ARCH_NR_GPIOS d2.irq_gpio then
        ⟨-1, d2, tr4⟩
      else
        let rc2 := host.gpio_request tr4 d2.irq_gpio "goodix_irq"
        let tr5 := tr4 ++ [Event.gpio_request d2.irq_gpio "goodix_irq" rc2]
        if rc2 ≠ 0 then
          ⟨-1, d2, tr5⟩
        else
          let tr6 := tr5 ++ [Event.gpio_direction_input d2.irq_gpio
                              (host.gpio_direction_input tr5 d2.irq_gpio)]
          ⟨0, d2, tr6⟩

/-- Embedding of `gf_cleanup` (a `void` function: only the trace changes). -/
def gf_cleanup (ARCH_NR_GPIOS : Nat) (d : gf_dev) (tr0 : Trace) : Trace :=
  let tr1 := if gpio_is_valid ARCH_NR_GPIOS d.irq_gpio then tr0 ++ [Event.gpio_free d.irq_gpio] else tr0
  if gpio_is_valid ARCH_NR_GPIOS d.reset_gpio then tr1 ++ [Event.gpio_free d.reset_gpio] else tr1

/-- Embedding of `gf_power_control`. -/
def gf_power_control (host : Host) (d : gf_dev) (enable : Bool) (tr0 : Trace) : GfResult :=
  let rc0 : Int := 0
  if d.power_on == enable then
    -- "power double enable/disable": goto err_double_power_control
    ⟨rc0, d, tr0⟩
  else
    let d1 : gf_dev := { d with power_on := enable }
    let rc := if d1.power_on then host.regulator_enable tr0 d1.vdd else host.regulator_disable tr0 d1.vdd
    let tr1 := tr0 ++ [if d1.power_on then Event.regulator_enable d1.vdd rc
                       else Event.regulator_disable d1.vdd rc]
    if rc ≠ 0 then
      ⟨rc, { d1 with power_on := !enable }, tr1⟩
    else
      ⟨rc, d1, tr1⟩

/-- Embedding of `gf_hw_reset`; the argument is `none` for a NULL `gf_dev`.
The return value of `gpio_direction_output` is discarded by the code. -/
def gf_hw_reset (host : Host) (dev : Option gf_dev) (delay_ms : Nat) (tr0 : Trace) : Int × Trace :=
  match dev with
  | none => (-1, tr0)
  | some d =>
    (0, tr0 ++ [Event.gpio_direction_output d.reset_gpio 1 (host.gpio_direction_output tr0 d.reset_gpio 1),
                Event.gpio_set_value d.reset_gpio 0,
                Event.mdelay 3,
                Event.gpio_set_value d.reset_gpio 1,
                Event.mdelay delay_ms])

/-- Embedding of `gf_irq_num`. -/
def gf_irq_num (host : Host) (dev : Option gf_dev) : Int :=
  match dev with
  | none => -1
  | some d => host.gpio_to_irq d.irq_gpio

/-- A host on which every call succeeds: line lookups answer `lines name`,
allocations and handle lookups answer distinct valid pointers. -/
def host_ok (lines : String → Int) : Host where
  of_get_named_gpio := fun _ name => lines name
  gpio_request := fun _ _ _ => 0
  devm_gpio_request := fun _ _ _ => 0
  gpio_direction_output := fun _ _ _ => 0
  gpio_direction_input := fun _ _ => 0
  regulator_enable := fun _ _ => 0
  regulator_disable := fun _ _ => 0
  devm_pinctrl_get := fun _ => ⟨4096⟩
  pinctrl_lookup_state := fun _ _ name => if name = "pmx_fp_active" then ⟨4104⟩ else ⟨4112⟩
  pinctrl_select_state := fun _ _ _ => 0
  devm_kzalloc := fun _ => ⟨8192⟩
  class_create := fun _ _ => ⟨12288⟩
  device_create := fun _ _ _ _ => ⟨16384⟩
  sysfs_create_group := fun _ => 0
  devm_request_threaded_irq := fun _ _ => 0
  gpio_to_irq := fun gpio => gpio + 256

/-! ## FPC1020: `fpc1020_tee_qsee4.c` -/

/-- The constants that `fpc1020_tee_qsee4.c` takes from `fpc1020_tee.h`, which is
not among the sources under study. -/
structure Config where
  N_SPI_MINORS : Nat
  SPIDEV_MAJOR : Nat
  FPC1020_CLASS_NAME : String
  FPC1020_DEV_NAME : String
  FPC1020_RESET_HIGH1_US : Nat
  FPC1020_RESET_LOW_US : Nat
  FPC1020_RESET_HIGH2_US : Nat

/-- Modelled from the spec: `struct fpc1020_data`, declared in `fpc1020_tee.h`,
which is not among the sources under study.  The fields are those the driver
uses; `cls` is the field `class`. -/
structure fpc1020_data where
  ts_pinctrl : Ptr
  gpio_state_active : Ptr
  gpio_state_suspend : Ptr
  irq_gpio : Int
  rst_gpio : Int
  enable_gpio : Int
  enable_vddio_gpio : Int
  wakeup_enabled : Bool
  cls : Ptr
  minor : Nat
  dev_num : Nat
  node_dev : Ptr
deriving DecidableEq

/-- Return value, device structure and trace after a call. -/
structure FpcResult where
  rc : Int
  dev : fpc1020_data
  trace : Trace
deriving DecidableEq

/-- The terminating NUL of a C string. -/
def NUL : Char := Char.ofNat 0

/-- Modelled from the spec: `strncmp` of `lib/string.c`, which is not among the
sources under study.  A C string is the list of its characters before the
terminating NUL; reading past the end of the list reads that NUL.  The result
is `0` when the first `count` characters agree (or both strings end earlier),
else `-1` or `1`. -/
def strncmp : List Char → List Char → Nat → Int
  | _, _, 0 => 0
  | cs, ct, count + 1 =>
    let c1 := cs.headD NUL
    let c2 := ct.headD NUL
    if c1 ≠ c2 then (if c1.toNat < c2.toNat then -1 else 1)
    else if c1 = NUL then 0
    else strncmp cs.tail ct.tail count

/-- Modelled from the spec: `strlen` of `lib/string.c`: the number of characters
before the first NUL. -/
def strlen (s : List Char) : Nat := (s.takeWhile (fun c => c ≠ NUL)).length

/-- Conversion of a `size_t` to `ssize_t` (two's complement, 64 bits). -/
def to_ssize_t (count : Nat) : Int := to_long count

/-- Embedding of `wakeup_enable_set`: the returned `ssize_t` and the device
context after the write.  `buf` is the written string, `count` its `size_t`
length argument. -/
def wakeup_enable_set (fpc1020 : fpc1020_data) (buf : List Char) (count : Nat) : Int × fpc1020_data :=
  if strncmp buf "enable".toList (strlen "enable".toList) = 0 then
    (to_ssize_t count, { fpc1020 with wakeup_enabled := true })
  else if strncmp buf "disable".toList (strlen "disable".toList) = 0 then
    (to_ssize_t count, { fpc1020 with wakeup_enabled := false })
  else
    (-EINVAL, fpc1020)

/-- Result of `fpc1020_request_named_gpio`: return value, the `int` behind the
`gpio` pointer, trace. -/
structure GpioResult where
  rc : Int
  gpio : Int
  trace : Trace
deriving DecidableEq

/-- Embedding of `fpc1020_request_named_gpio`; `gpio0` is `*gpio` before the call. -/
def fpc1020_request_named_gpio (host : Host) (label : String) (gpio0 : Int) (tr0 : Trace) : GpioResult :=
  let rc := host.of_get_named_gpio tr0 label
  let tr1 := tr0 ++ [Event.of_get_named_gpio label rc]
  if rc < 0 then
    ⟨rc, gpio0, tr1⟩
  else
    let gpio := rc
    let rc2 := host.devm_gpio_request tr1 gpio label
    ⟨rc2, gpio, tr1 ++ [Event.devm_gpio_request gpio label rc2]⟩

/-- The code at label `err` of `fpc1020_pinctrl_init`. -/
def fpc1020_pinctrl_init_err (ret : Int) (d : fpc1020_data) (tr : Trace) : FpcResult :=
  ⟨ret, { d with ts_pinctrl := NULL, gpio_state_active := NULL, gpio_state_suspend := NULL }, tr⟩

/-- Embedding of `fpc1020_pinctrl_init`. -/
def fpc1020_pinctrl_init (host : Host) (d : fpc1020_data) (tr0 : Trace) : FpcResult :=
  let p := host.devm_pinctrl_get tr0
  let d1 : fpc1020_data := { d with ts_pinctrl := p }
  let tr1 := tr0 ++ [Event.devm_pinctrl_get p]
  if IS_ERR_OR_NULL d1.ts_pinctrl then
    fpc1020_pinctrl_init_err (to_int (PTR_ERR d1.ts_pinctrl)) d1 tr1
  else
    let a := host.pinctrl_lookup_state tr1 d1.ts_pinctrl "pmx_fp_active"
    let d2 : fpc1020_data := { d1 with gpio_state_active := a }
    let tr2 := tr1 ++ [Event.pinctrl_lookup_state d1.ts_pinctrl "pmx_fp_active" a]
    if IS_ERR_OR_NULL d2.gpio_state_active then
      fpc1020_pinctrl_init_err (to_int (PTR_ERR d2.gpio_state_active)) d2 tr2
    else
      let s := host.pinctrl_lookup_state tr2 d2.ts_pinctrl "pmx_fp_suspend"
      let d3 : fpc1020_data := { d2 with gpio_state_suspend := s }
      let tr3 := tr2 ++ [Event.pinctrl_lookup_state d2.ts_pinctrl "pmx_fp_suspend" s]
      if IS_ERR_OR_NULL d3.gpio_state_suspend then
        fpc1020_pinctrl_init_err (to_int (PTR_ERR d3.gpio_state_suspend)) d3 tr3
      else
        ⟨0, d3, tr3⟩

/-- Embedding of `fpc1020_pinctrl_select`. -/
def fpc1020_pinctrl_select (host : Host) (d : fpc1020_data) (on_ : Bool) (tr0 : Trace) : FpcResult :=
  let pins_state := if on_ then d.gpio_state_active else d.gpio_state_suspend
  if IS_ERR_OR_NULL pins_state then
    ⟨-1, d, tr0⟩
  else
    let ret := host.pinctrl_select_state tr0 d.ts_pinctrl pins_state
    ⟨ret, d, tr0 ++ [Event.pinctrl_select_state d.ts_pinctrl pins_state ret]⟩

/-- Embedding of `fpc1020_parse_dt`.  The function is static and its only
caller passes the context it has just allocated, so the
`IS_ERR_OR_NULL(fpc1020)` guard is never taken and the context is passed by
value. -/
def fpc1020_parse_dt (host : Host) (d : fpc1020_data) (tr0 : Trace) : FpcResult :=
  let r1 := fpc1020_request_named_gpio host "fpc,enable-vdd-ldo" d.enable_gpio tr0
  let d1 : fpc1020_data := { d with enable_gpio := r1.gpio }
  if r1.rc ≠ 0 then ⟨-ENODEV, d1, r1.trace⟩
  else
    let r2 := fpc1020_request_named_gpio host "fpc,enable-vddio-ldo" d1.enable_vddio_gpio r1.trace
    let d2 : fpc1020_data := { d1 with enable_vddio_gpio := r2.gpio }
    if r2.rc ≠ 0 then ⟨-ENODEV, d2, r2.trace⟩
    else
      let r3 := fpc1020_request_named_gpio host "fpc,reset-gpio" d2.rst_gpio r2.trace
      let d3 : fpc1020_data := { d2 with rst_gpio := r3.gpio }
      if r3.rc ≠ 0 then ⟨-ENODEV, d3, r3.trace⟩
      else
        let r4 := fpc1020_request_named_gpio host "fpc,irq-gpio" d3.irq_gpio r3.trace
        let d4 : fpc1020_data := { d3 with irq_gpio := r4.gpio }
        if r4.rc ≠ 0 then ⟨-ENODEV, d4, r4.trace⟩
        else ⟨0, d4, r4.trace⟩

/-- The code at label `exit` of `fpc1020_hw_configure`. -/
def fpc1020_hw_configure_exit (d : fpc1020_data) (tr0 : Trace) : FpcResult :=
  let tr1 := if d.irq_gpio ≠ 0 then tr0 ++ [Event.gpio_free d.irq_gpio] else tr0
  let tr2 := if d.rst_gpio ≠ 0 then tr1 ++ [Event.gpio_free d.rst_gpio] else tr1
  let tr3 := if d.enable_vddio_gpio ≠ 0 then tr2 ++ [Event.gpio_free d.enable_vddio_gpio] else tr2
  let tr4 := if d.enable_gpio ≠ 0 then tr3 ++ [Event.gpio_free d.enable_gpio] else tr3
  ⟨-ENODEV, d, tr4⟩

/-- Embedding of `fpc1020_hw_configure` (context passed by value, as for
`fpc1020_parse_dt`). -/
def fpc1020_hw_configure (host : Host) (d : fpc1020_data) (tr0 : Trace) : FpcResult :=
  let rc1 := host.gpio_direction_output tr0 d.enable_gpio 1
  let tr1 := tr0 ++ [Event.gpio_direction_output d.enable_gpio 1 rc1]
  if rc1 ≠ 0 then fpc1020_hw_configure_exit d tr1
  else
    let rc2 := host.gpio_direction_output tr1 d.enable_vddio_gpio 1
    let tr2 := tr1 ++ [Event.gpio_direction_output d.enable_vddio_gpio 1 rc2]
    if rc2 ≠ 0 then fpc1020_hw_configure_exit d tr2
    else
      let rc3 := host.gpio_direction_output tr2 d.rst_gpio 1
      let tr3 := tr2 ++ [Event.gpio_direction_output d.rst_gpio 1 rc3]
      if rc3 ≠ 0 then fpc1020_hw_configure_exit d tr3
      else
        let rc4 := host.gpio_direction_input tr3 d.irq_gpio
        let tr4 := tr3 ++ [Event.gpio_direction_input d.irq_gpio rc4]
        if rc4 ≠ 0 then fpc1020_hw_configure_exit d tr4
        else
          let r5 := fpc1020_pinctrl_init host d tr4
          if r5.rc ≠ 0 then fpc1020_hw_configure_exit r5.dev r5.trace
          else
            let r6 := fpc1020_pinctrl_select host r5.dev true r5.trace
            if r6.rc ≠ 0 then fpc1020_hw_configure_exit r6.dev r6.trace
            else ⟨0, r6.dev, r6.trace⟩

/-- Embedding of `fpc1020_regulator_power_on` (a `void` function). -/
def fpc1020_regulator_power_on (d : fpc1020_data) (on_ : Bool) (tr0 : Trace) : Trace :=
  if on_ then
    tr0 ++ [Event.gpio_set_value d.enable_gpio 1, Event.gpio_set_value d.enable_vddio_gpio 1]
  else
    tr0 ++ [Event.gpio_set_value d.enable_gpio 0, Event.gpio_set_value d.enable_vddio_gpio 0]

/-- Embedding of `fpc1020_device_reset` (a `void` function). -/
def fpc1020_device_reset (cfg : Config) (d : fpc1020_data) (tr0 : Trace) : Trace :=
  tr0 ++ [Event.gpio_set_value d.rst_gpio 1,
          Event.udelay cfg.FPC1020_RESET_HIGH1_US,
          Event.gpio_set_value d.rst_gpio 0,
          Event.udelay cfg.FPC1020_RESET_LOW_US,
          Event.gpio_set_value d.rst_gpio 1,
          Event.udelay cfg.FPC1020_RESET_HIGH2_US]

/-- Scan of a bitmap for a clear bit: looks at `count` positions from `i` on. -/
def find_zero_from (addr : Nat) : Nat → Nat → Nat
  | 0, i => i
  | count + 1, i => if addr.testBit i then find_zero_from addr count (i + 1) else i

/-- Modelled from the spec: `find_first_zero_bit` of `linux/bitops.h`, which is
not among the sources under study: the number of the first clear bit among
the first `size` bits of the bitmap, or `size` when there is none.  The bitmap
is the natural number whose binary digits are its bits. -/
def find_first_zero_bit (addr : Nat) (size : Nat) : Nat := find_zero_from addr size 0

/-- Modelled from the spec: `set_bit` of `linux/bitops.h`. -/
def set_bit (nr : Nat) (addr : Nat) : Nat := addr ||| (1 <<< nr)

/-- Modelled from the spec: `MKDEV` of `linux/kdev_t.h` (`MINORBITS` is 20). -/
def MKDEV (ma mi : Nat) : Nat := (ma <<< 20) ||| mi

/-- The file-scope state of the FPC driver (`minors`, `device_list`) and the
trace of kernel calls. -/
structure Kernel where
  minors : Nat
  device_list : List Ptr
  trace : Trace
deriving DecidableEq

/-- What `fpc1020_probe` leaves behind: its return value, the address and the
content of the context it allocated (`none` when the allocation failed), and
the driver state. -/
structure ProbeResult where
  rc : Int
  self : Ptr
  dev : Option fpc1020_data
  k : Kernel
deriving DecidableEq

/-- The context as `devm_kzalloc` returns it: all fields zero. -/
def fpc1020_data_zero : fpc1020_data :=
  ⟨NULL, NULL, NULL, 0, 0, 0, 0, false, NULL, 0, 0, NULL⟩

/-- The code at label `exit_hw_put` of `fpc1020_probe`, down to the return. -/
def fpc1020_probe_exit_hw_put (rc : Int) (p : Ptr) (d : fpc1020_data) (k : Kernel) : ProbeResult :=
  ⟨rc, p, some d, { k with trace := fpc1020_regulator_power_on d false k.trace }⟩

/-- The code at label `exit_create_sysfs` of `fpc1020_probe`, down to the return. -/
def fpc1020_probe_exit_create_sysfs (rc : Int) (p : Ptr) (d : fpc1020_data) (k : Kernel) : ProbeResult :=
  fpc1020_probe_exit_hw_put rc p d
    { k with trace := k.trace ++ [Event.device_destroy d.cls d.dev_num, Event.class_destroy d.cls] }

/-- The code of `fpc1020_probe` from the test `if (rc == 0)` that follows the
identity allocation down to the return.  `rc`, the context `d` and the trace
of `k` are as the two branches of `if (fpc1020->minor < N_SPI_MINORS)` leave
them; `p` is the address of the context. -/
def fpc1020_probe_register (cfg : Config) (host : Host) (rc : Int) (p : Ptr) (d : fpc1020_data)
    (k : Kernel) : ProbeResult :=
  if rc = 0 then
    let k5 : Kernel :=
      { minors := set_bit d.minor k.minors, device_list := p :: k.device_list, trace := k.trace }
    let rc5 := host.sysfs_create_group k5.trace
    let k6 : Kernel := { k5 with trace := k5.trace ++ [Event.sysfs_create_group rc5] }
    if rc5 ≠ 0 then fpc1020_probe_exit_create_sysfs rc5 p d k6
    else
      -- IRQ configure
      let irq := host.gpio_to_irq d.irq_gpio
      let rc6 := host.devm_request_threaded_irq k6.trace irq
      let k7 : Kernel := { k6 with trace := k6.trace ++ [Event.devm_request_threaded_irq irq rc6] }
      if rc6 ≠ 0 then fpc1020_probe_exit_create_sysfs rc6 p d k7
      else
        -- the interrupt is made wakeable, the device is reset
        let tr8 := k7.trace ++ [Event.enable_irq_wake irq]
        ⟨0, p, some d, { k7 with trace := fpc1020_device_reset cfg d tr8 }⟩
  else
    fpc1020_probe_exit_hw_put rc p d k

/-- Embedding of `fpc1020_probe`. -/
def fpc1020_probe (cfg : Config) (host : Host) (k : Kernel) : ProbeResult :=
  let p := host.devm_kzalloc k.trace
  let tr0 := k.trace ++ [Event.devm_kzalloc p]
  if p.addr % 2 ^ 64 == 0 then
    ⟨-ENOMEM, p, none, { k with trace := tr0 }⟩
  else
    let d0 : fpc1020_data := { fpc1020_data_zero with wakeup_enabled := false }
    let tr1 := tr0 ++ [Event.dev_set_drvdata p, Event.mutex_init, Event.wake_lock_init "fpc_ttw_wl"]
    -- parse device tree
    let r1 := fpc1020_parse_dt host d0 tr1
    if r1.rc < 0 then ⟨r1.rc, p, some r1.dev, { k with trace := r1.trace }⟩
    else
      -- hardware configure
      let r2 := fpc1020_hw_configure host r1.dev r1.trace
      if r2.rc < 0 then ⟨r2.rc, p, some r2.dev, { k with trace := r2.trace }⟩
      else
        let tr2 := fpc1020_regulator_power_on r2.dev true r2.trace
        -- create the sysfs node
        let cls := host.class_create tr2 cfg.FPC1020_CLASS_NAME
        let tr3 := tr2 ++ [Event.class_create cfg.FPC1020_CLASS_NAME cls]
        let d3 : fpc1020_data :=
          { r2.dev with cls := cls, minor := find_first_zero_bit k.minors cfg.N_SPI_MINORS }
        if d3.minor < cfg.N_SPI_MINORS then
          let devt := MKDEV cfg.SPIDEV_MAJOR d3.minor
          let node := host.device_create tr3 d3.cls devt cfg.FPC1020_DEV_NAME
          let d4 : fpc1020_data := { d3 with dev_num := devt, node_dev := node }
          let tr4 := tr3 ++ [Event.device_create d3.cls devt cfg.FPC1020_DEV_NAME node]
          fpc1020_probe_register cfg host
            (to_int (if IS_ERR d4.node_dev then PTR_ERR d4.node_dev else 0)) p d4 { k with trace := tr4 }
        else
          -- no minor number available
          fpc1020_probe_register cfg host (-ENODEV) p d3 { k with trace := tr3 }

/-- The minors handed out by a sequence of attaches, one host answer set per
attach, in order; an attach that fails hands out none.  Also the driver state
after the last attach. -/
def attach_all (cfg : Config) : List Host → Kernel → List Nat × Kernel
  | [], k => ([], k)
  | host :: rest, k =>
    let r := fpc1020_probe cfg host k
    let out := attach_all cfg rest r.k
    (if r.rc = 0 then
       (match r.dev with
        | some d => d.minor :: out.1
        | none => out.1)
     else out.1, out.2)

/-- Sample values for the constants of `fpc1020_tee.h`, used in evaluations. -/
def cfg32 : Config :=
  ⟨32, 225, "fpc1020", "fpc1020", 100, 100, 100⟩

/-- Device-tree lines used in examples. -/
def lines_fpc (name : String) : Int :=
  if name = "fpc,enable-vdd-ldo" then 10
  else if name = "fpc,enable-vddio-ldo" then 11
  else if name = "fpc,reset-gpio" then 12
  else if name = "fpc,irq-gpio" then 13
  else if name = "fp-gpio-reset" then 20
  else if name = "fp-gpio-irq" then 21
  else -2

/-- Device-tree lines with the interrupt line on GPIO 0. -/
def lines_irq0 (name : String) : Int :=
  if name = "fpc,irq-gpio" then 0 else lines_fpc name

/-- One step of `confirmed_power`: a regulator call that returned 0 confirms
its state, every other call leaves the confirmed state as it is. -/
def confirm_step (state : Bool) : Event → Bool
  | Event.regulator_enable _ ret => if ret = 0 then true else state
  | Event.regulator_disable _ ret => if ret = 0 then false else state
  | _ => state

/-- The power state confirmed by a trace: that of its last successful
regulator call, `init` when it has none. -/
def confirmed_power (init : Bool) (tr : Trace) : Bool := tr.foldl confirm_step init

/-- The level an event drives onto `line`, if it drives that line. -/
def level_on (line : Int) : Event → Option Int
  | Event.gpio_set_value gpio value => if gpio = line then some value else none
  | Event.gpio_direction_output gpio value _ => if gpio = line then some value else none
  | _ => none

/-- The time an event holds the caller, in microseconds; `none` when the event
is not a delay. -/
def hold_us : Event → Option Nat
  | Event.udelay us => some us
  | Event.mdelay ms => some (1000 * ms)
  | _ => none

/-- The pulse of the specification on `line`: exactly six events, a write of
high, a hold, a write of low, a hold, a write of high, a hold. -/
def is_reset_pulse (line : Int) : Trace → Bool
  | [w1, h1, w2, h2, w3, h3] =>
    level_on line w1 == some 1 && (hold_us h1).isSome &&
    level_on line w2 == some 0 && (hold_us h2).isSome &&
    level_on line w3 == some 1 && (hold_us h3).isSome
  | _ => false

/-- The lines released by a trace, in order. -/
def freed (tr : Trace) : List Int :=
  tr.filterMap fun e => match e with
    | Event.gpio_free gpio => some gpio
    | _ => none

/-- The lines a trace requested with success through `gpio_request`. -/
def requested (tr : Trace) : List Int :=
  tr.filterMap fun e => match e with
    | Event.gpio_request gpio _ ret => if ret = 0 then some gpio else none
    | _ => none

/-- The levels a trace drives onto `line`, in order. -/
def writes (line : Int) (tr : Trace) : List Int := tr.filterMap (level_on line)

/-- A request for the state already recorded takes the `err_double_power_control`
exit: it returns the initial `rc = 0` and changes nothing. -/
theorem gf_power_control_redundant (host : Host) (d : gf_dev) (tr : Trace) :
    gf_power_control host d d.power_on tr = ⟨0, d, tr⟩ := by
  simp [gf_power_control]

/-- C1, evaluated on the code: from `power_on = false`, enabling twice on a host
whose regulator succeeds, and from `power_on = true`, disabling twice.  The
first call returns 0, after the second call `power_on` is the requested state,
and the second call returns 0 as well, the value of a successful transition,
without a further regulator call. -/
theorem gf_power_control_twice_returns_zero :
    (let r1 := gf_power_control (host_ok lines_fpc) ⟨20, 21, false, ⟨64⟩⟩ true []
     let r2 := gf_power_control (host_ok lines_fpc) r1.dev true r1.trace
     r1.rc = 0 ∧ r2.dev.power_on = true ∧ r2.rc = 0 ∧
       r2.trace = [Event.regulator_enable ⟨64⟩ 0]) ∧
    (let r1 := gf_power_control (host_ok lines_fpc) ⟨20, 21, true, ⟨64⟩⟩ false []
     let r2 := gf_power_control (host_ok lines_fpc) r1.dev false r1.trace
     r1.rc = 0 ∧ r2.dev.power_on = false ∧ r2.rc = 0 ∧
       r2.trace = [Event.regulator_disable ⟨64⟩ 0]) := by
  decide

/-- C7: when the requested state differs from the recorded one, `gf_power_control`
makes exactly one regulator call (`regulator_enable` for `enable = true`,
`regulator_disable` otherwise) and returns its result; when the call fails the
device structure is as before the call, so `power_on` has its old value; when
it succeeds `power_on` is the requested state.  Hence `power_on` stays the
state confirmed by the last successful regulator call of the trace. -/
theorem gf_power_control_transition (host : Host) (d : gf_dev) (enable : Bool) (tr : Trace)
    (hne : d.power_on ≠ enable) :
    let ret := if enable then host.regulator_enable tr d.vdd else host.regulator_disable tr d.vdd
    let r := gf_power_control host d enable tr
    r.trace = tr ++ [if enable then Event.regulator_enable d.vdd ret
                     else Event.regulator_disable d.vdd ret] ∧
    r.rc = ret ∧
    (ret ≠ 0 → r.dev = d ∧ r.dev.power_on = d.power_on) ∧
    (ret = 0 → r.dev = { d with power_on := enable } ∧ r.dev.power_on = enable) ∧
    (∀ init, d.power_on = confirmed_power init tr →
      r.dev.power_on = confirmed_power init r.trace) := by
  obtain ⟨rg, ig, pw, vdd⟩ := d
  cases enable <;> cases pw <;> simp at hne
  · by_cases h0 : host.regulator_disable tr vdd = 0 <;>
      simp [gf_power_control, confirmed_power, confirm_step, List.foldl_append, h0]
  · by_cases h0 : host.regulator_enable tr vdd = 0 <;>
      simp [gf_power_control, confirmed_power, confirm_step, List.foldl_append, h0]

/-- Witness for C7: power off, enable requested, the
regulator succeeds. -/
theorem gf_power_control_transition_witness :
    (gf_power_control (host_ok lines_fpc) ⟨20, 21, false, ⟨64⟩⟩ true []).trace
        = [] ++ [Event.regulator_enable ⟨64⟩ 0] ∧
    (gf_power_control (host_ok lines_fpc) ⟨20, 21, false, ⟨64⟩⟩ true []).rc = 0 :=
  ⟨(gf_power_control_transition (host_ok lines_fpc) ⟨20, 21, false, ⟨64⟩⟩ true [] (by decide)).1,
   (gf_power_control_transition (host_ok lines_fpc) ⟨20, 21, false, ⟨64⟩⟩ true [] (by decide)).2.1⟩

/-! ## Theorems: Goodix line release -/

/-- After a `gf_parse_dts` that returned 0, `gf_cleanup` frees the irq line and
then the reset line, once each, and both had been requested with success. -/
theorem gf_cleanup_after_success (n : Nat) (host : Host) (d : gf_dev) (r : GfResult)
    (hr : r = gf_parse_dts n host d []) (hok : r.rc = 0) :
    freed (gf_cleanup n r.dev r.trace) = [r.dev.irq_gpio, r.dev.reset_gpio] ∧
    requested r.trace = [r.dev.reset_gpio, r.dev.irq_gpio] := by
  unfold gf_parse_dts at hr
  simp only at hr
  generalize host.of_get_named_gpio [] "fp-gpio-reset" = g1 at hr
  generalize host.gpio_request _ g1 "goodix_reset" = q1 at hr
  generalize host.gpio_direction_output _ g1 1 = o1 at hr
  generalize host.of_get_named_gpio _ "fp-gpio-irq" = g2 at hr
  generalize host.gpio_request _ g2 "goodix_irq" = q2 at hr
  generalize host.gpio_direction_input _ g2 = o2 at hr
  split_ifs at hr with v1 c1 v2 c2
  · subst hr; simp at hok
  · subst hr; simp at hok
  · subst hr; simp at hok
  · subst hr; simp at hok
  · subst hr
    have w1 : gpio_is_valid n g1 = true := by simpa using v1
    have w2 : gpio_is_valid n g2 = true := by simpa using v2
    have z1 : q1 = 0 := by simpa using c1
    have z2 : q2 = 0 := by simpa using c2
    simp [gf_cleanup, w1, w2, freed, requested, z1, z2]

/-- C10, evaluated on the code: the device tree names line 20 as the reset
line and `gpio_request` refuses it with `-EBUSY`.  `gf_parse_dts` returns -1
having requested no line with success, and `gf_cleanup` then frees line 20. -/
theorem gf_cleanup_frees_unrequested_line :
    let host : Host := { host_ok lines_fpc with gpio_request := fun _ _ _ => -16 }
    let r := gf_parse_dts 512 host ⟨-22, -22, false, ⟨64⟩⟩ []
    r.rc = -1 ∧
    r.trace = [Event.of_get_named_gpio "fp-gpio-reset" 20,
               Event.gpio_request 20 "goodix_reset" (-16)] ∧
    requested r.trace = [] ∧
    gf_cleanup 512 r.dev r.trace = r.trace ++ [Event.gpio_free 20] ∧
    freed (gf_cleanup 512 r.dev r.trace) = [20] := by
  decide

/-! ## Theorems: reset pulse -/

/-- C6 as stated, refuted for the Goodix routine: on reset line 20 with a settle
delay of 10 ms the trace of `gf_hw_reset` has five events, not six; the line
is driven high by `gpio_direction_output` and driven low by the very next
call, with no hold between the two. -/
theorem gf_hw_reset_has_no_first_hold :
    is_reset_pulse 20 (gf_hw_reset (host_ok lines_fpc) (some ⟨20, 21, false, ⟨64⟩⟩) 10 []).2 = false ∧
    (gf_hw_reset (host_ok lines_fpc) (some ⟨20, 21, false, ⟨64⟩⟩) 10 []).2 =
      [Event.gpio_direction_output 20 1 0, Event.gpio_set_value 20 0, Event.mdelay 3,
       Event.gpio_set_value 20 1, Event.mdelay 10] := by
  decide

/-- C6, amended: `fpc1020_device_reset` drives the reset line through exactly
high, hold `FPC1020_RESET_HIGH1_US`, low, hold `FPC1020_RESET_LOW_US`, high,
hold `FPC1020_RESET_HIGH2_US`, which is a reset pulse with three holds.
`gf_hw_reset` returns 0 and drives the line high (by `gpio_direction_output`)
with no hold after it, then low, hold 3 ms, high, hold `delay_ms`.  In both
routines the writes to the line are high, low, high and nothing else. -/
theorem reset_sequences (cfg : Config) (d : fpc1020_data) (host : Host) (g : gf_dev)
    (delay_ms : Nat) (tr0 : Trace) :
    fpc1020_device_reset cfg d tr0 =
      tr0 ++ [Event.gpio_set_value d.rst_gpio 1, Event.udelay cfg.FPC1020_RESET_HIGH1_US,
              Event.gpio_set_value d.rst_gpio 0, Event.udelay cfg.FPC1020_RESET_LOW_US,
              Event.gpio_set_value d.rst_gpio 1, Event.udelay cfg.FPC1020_RESET_HIGH2_US] ∧
    is_reset_pulse d.rst_gpio (fpc1020_device_reset cfg d []) = true ∧
    writes d.rst_gpio (fpc1020_device_reset cfg d []) = [1, 0, 1] ∧
    gf_hw_reset host (some g) delay_ms tr0 =
      (0, tr0 ++ [Event.gpio_direction_output g.reset_gpio 1
                    (host.gpio_direction_output tr0 g.reset_gpio 1),
                  Event.gpio_set_value g.reset_gpio 0, Event.mdelay 3,
                  Event.gpio_set_value g.reset_gpio 1, Event.mdelay delay_ms]) ∧
    writes g.reset_gpio (gf_hw_reset host (some g) delay_ms []).2 = [1, 0, 1] := by
  simp [fpc1020_device_reset, gf_hw_reset, is_reset_pulse, writes, level_on, hold_us]

/-! ## Theorems: the `wakeup_enable` attribute -/

/-- For a token without NUL, `strncmp` over the length of the token answers 0
exactly when the string begins with the token. -/
theorem strncmp_eq_zero_iff (tok : List Char) (hnul : NUL ∉ tok) (buf : List Char) :
    strncmp buf tok tok.length = 0 ↔ tok <+: buf := by
  induction tok generalizing buf with
  | nil => simp [strncmp]
  | cons c t ih =>
    have hc : c ≠ NUL := fun h => hnul (by simp [h])
    have ht : NUL ∉ t := fun h => hnul (by simp [h])
    cases buf with
    | nil =>
      simp only [List.length_cons, strncmp, List.headD_nil, List.headD_cons]
      rw [if_pos (Ne.symm hc)]
      constructor
      · intro h; split at h <;> simp at h
      · intro h; simp at h
    | cons b bs =>
      simp only [List.length_cons, strncmp, List.headD_cons, List.tail_cons]
      by_cases hbc : b = c
      · subst hbc
        simp [hc, ih ht bs]
      · rw [if_pos hbc]
        constructor
        · intro h; split at h <;> simp at h
        · intro h; simp at h; exact absurd h.1.symm hbc

/-- C2 as stated, refuted: with the wake policy enabled, the write of
`"disabled_xyz"` (12 bytes) returns 12, not `-EINVAL`, and switches the policy
off. -/
theorem wakeup_enable_set_accepts_disabled_xyz :
    (wakeup_enable_set { fpc1020_data_zero with wakeup_enabled := true } "disabled_xyz".toList 12).1 = 12 ∧
    (wakeup_enable_set { fpc1020_data_zero with wakeup_enabled := true } "disabled_xyz".toList 12).1 ≠ -EINVAL ∧
    (wakeup_enable_set { fpc1020_data_zero with wakeup_enabled := true } "disabled_xyz".toList 12).2.wakeup_enabled
      = false := by
  decide

/-- What `wakeup_enable_set` does, by the leading token of `buf`, for every
context, string and count. -/
theorem wakeup_enable_set_cases (d : fpc1020_data) (buf : List Char) (count : Nat) :
    ("enable".toList <+: buf →
      wakeup_enable_set d buf count = (to_ssize_t count, { d with wakeup_enabled := true })) ∧
    (¬ "enable".toList <+: buf → "disable".toList <+: buf →
      wakeup_enable_set d buf count = (to_ssize_t count, { d with wakeup_enabled := false })) ∧
    (¬ "enable".toList <+: buf → ¬ "disable".toList <+: buf →
      wakeup_enable_set d buf count = (-EINVAL, d)) := by
  have l1 : strlen "enable".toList = "enable".toList.length := by decide
  have l2 : strlen "disable".toList = "disable".toList.length := by decide
  have n1 : NUL ∉ "enable".toList := by decide
  have n2 : NUL ∉ "disable".toList := by decide
  have p1 := strncmp_eq_zero_iff "enable".toList n1 buf
  have p2 := strncmp_eq_zero_iff "disable".toList n2 buf
  rw [← l1] at p1
  rw [← l2] at p2
  refine ⟨?_, ?_, ?_⟩
  · intro h1
    simp only [wakeup_enable_set, if_pos (p1.mpr h1)]
  · intro h1 h2
    have q1 : ¬ strncmp buf "enable".toList (strlen "enable".toList) = 0 := fun h => h1 (p1.mp h)
    simp only [wakeup_enable_set, if_neg q1, if_pos (p2.mpr h2)]
  · intro h1 h2
    have q1 : ¬ strncmp buf "enable".toList (strlen "enable".toList) = 0 := fun h => h1 (p1.mp h)
    have q2 : ¬ strncmp buf "disable".toList (strlen "disable".toList) = 0 := fun h => h2 (p2.mp h)
    simp only [wakeup_enable_set, if_neg q1, if_neg q2]

/-- C2, amended: for every context before the write and every count, writing
`"enable"` returns the count (as an `ssize_t`; 6 for the 6-byte write) and
leaves `wakeup_enabled` true; writing `"disabled_xyz"`, which begins with
`"disable"`, returns the count (12 for the 12-byte write) and leaves
`wakeup_enabled` false; writing any string that begins with neither token
returns `-EINVAL` and leaves the context as it was. -/
theorem wakeup_enable_set_payloads (d : fpc1020_data) (buf : List Char) (count : Nat) :
    wakeup_enable_set d "enable".toList count
      = (to_ssize_t count, { d with wakeup_enabled := true }) ∧
    wakeup_enable_set d "enable".toList 6 = (6, { d with wakeup_enabled := true }) ∧
    wakeup_enable_set d "disabled_xyz".toList count
      = (to_ssize_t count, { d with wakeup_enabled := false }) ∧
    wakeup_enable_set d "disabled_xyz".toList 12 = (12, { d with wakeup_enabled := false }) ∧
    (¬ "enable".toList <+: buf → ¬ "disable".toList <+: buf →
      wakeup_enable_set d buf count = (-EINVAL, d)) := by
  have c1 : to_ssize_t 6 = 6 := by decide
  have c2 : to_ssize_t 12 = 12 := by decide
  have e1 : "enable".toList <+: "enable".toList := by decide
  have e2 : ¬ "enable".toList <+: "disabled_xyz".toList := by decide
  have e3 : "disable".toList <+: "disabled_xyz".toList := by decide
  refine ⟨(wakeup_enable_set_cases d _ count).1 e1, ?_,
    (wakeup_enable_set_cases d _ count).2.1 e2 e3, ?_,
    (wakeup_enable_set_cases d buf count).2.2⟩
  · rw [(wakeup_enable_set_cases d _ 6).1 e1, c1]
  · rw [(wakeup_enable_set_cases d _ 12).2.1 e2 e3, c2]

/-- Witness for C2: the write of `"xyz"`, 3 bytes, with the wake policy
enabled, returns `-EINVAL` and leaves the context as it was. -/
theorem wakeup_enable_set_payloads_witness :
    (¬ "enable".toList <+: "xyz".toList ∧ ¬ "disable".toList <+: "xyz".toList) ∧
    wakeup_enable_set { fpc1020_data_zero with wakeup_enabled := true } "xyz".toList 3
      = (-EINVAL, { fpc1020_data_zero with wakeup_enabled := true }) :=
  ⟨⟨by decide, by decide⟩,
   (wakeup_enable_set_payloads { fpc1020_data_zero with wakeup_enabled := true } "xyz".toList 3).2.2.2.2
     (by decide) (by decide)⟩

/-- The lines released by the concatenation of two traces. -/
theorem freed_append (tr1 tr2 : Trace) : freed (tr1 ++ tr2) = freed tr1 ++ freed tr2 := by
  simp [freed, List.filterMap_append]

/-- The code at `exit` releases, in the order irq, reset, vddio enable, vdd
enable, those of the four lines whose number is not 0. -/
theorem fpc1020_hw_configure_exit_freed (d : fpc1020_data) (tr : Trace) :
    (fpc1020_hw_configure_exit d tr).rc = -ENODEV ∧
    freed (fpc1020_hw_configure_exit d tr).trace =
      freed tr ++ [d.irq_gpio, d.rst_gpio, d.enable_vddio_gpio, d.enable_gpio].filter (fun g => g ≠ 0) := by
  refine ⟨rfl, ?_⟩
  unfold fpc1020_hw_configure_exit
  by_cases h1 : d.irq_gpio = 0 <;> by_cases h2 : d.rst_gpio = 0 <;>
    by_cases h3 : d.enable_vddio_gpio = 0 <;> by_cases h4 : d.enable_gpio = 0 <;>
    simp [h1, h2, h3, h4, freed_append, freed, List.filter]

/-- Pin-control initialisation touches no line: the four line numbers of the
context and the released lines are as before. -/
theorem fpc1020_pinctrl_init_lines (host : Host) (d : fpc1020_data) (tr : Trace) :
    (fpc1020_pinctrl_init host d tr).dev.irq_gpio = d.irq_gpio ∧
    (fpc1020_pinctrl_init host d tr).dev.rst_gpio = d.rst_gpio ∧
    (fpc1020_pinctrl_init host d tr).dev.enable_vddio_gpio = d.enable_vddio_gpio ∧
    (fpc1020_pinctrl_init host d tr).dev.enable_gpio = d.enable_gpio ∧
    freed (fpc1020_pinctrl_init host d tr).trace = freed tr := by
  unfold fpc1020_pinctrl_init
  simp only
  split_ifs <;> simp [fpc1020_pinctrl_init_err, freed_append, freed]

/-- Pin-control selection leaves the context alone and releases no line. -/
theorem fpc1020_pinctrl_select_lines (host : Host) (d : fpc1020_data) (on_ : Bool) (tr : Trace) :
    (fpc1020_pinctrl_select host d on_ tr).dev = d ∧
    freed (fpc1020_pinctrl_select host d on_ tr).trace = freed tr := by
  unfold fpc1020_pinctrl_select
  simp only
  split_ifs <;> simp [freed_append, freed]

/-- The lines `fpc1020_hw_configure` releases, for every host and context:
none when it returns 0; when it fails it returns `-ENODEV` and releases, in
the order irq, reset, vddio enable, vdd enable, each of the four lines whose
number is not 0, once. -/
theorem fpc1020_hw_configure_freed (host : Host) (d : fpc1020_data) (tr : Trace) (r : FpcResult)
    (hr : r = fpc1020_hw_configure host d tr) :
    (r.rc = 0 ∧ freed r.trace = freed tr) ∨
    (r.rc = -ENODEV ∧
      freed r.trace = freed tr ++
        [d.irq_gpio, d.rst_gpio, d.enable_vddio_gpio, d.enable_gpio].filter (fun g => g ≠ 0)) := by
  unfold fpc1020_hw_configure at hr
  simp only at hr
  generalize host.gpio_direction_output tr d.enable_gpio 1 = a1 at hr
  generalize host.gpio_direction_output _ d.enable_vddio_gpio 1 = a2 at hr
  generalize host.gpio_direction_output _ d.rst_gpio 1 = a3 at hr
  generalize host.gpio_direction_input _ d.irq_gpio = a4 at hr
  generalize hT : tr ++ [Event.gpio_direction_output d.enable_gpio 1 a1]
      ++ [Event.gpio_direction_output d.enable_vddio_gpio 1 a2]
      ++ [Event.gpio_direction_output d.rst_gpio 1 a3]
      ++ [Event.gpio_direction_input d.irq_gpio a4] = T at hr
  have fT : freed T = freed tr := by rw [← hT]; simp [freed_append, freed]
  have l := fpc1020_pinctrl_init_lines host d T
  generalize fpc1020_pinctrl_init host d T = r5 at hr l
  have l6 := fpc1020_pinctrl_select_lines host r5.dev true r5.trace
  generalize fpc1020_pinctrl_select host r5.dev true r5.trace = r6 at hr l6
  have e := fpc1020_hw_configure_exit_freed
  split_ifs at hr
  · subst hr; right
    refine ⟨(e _ _).1, ?_⟩
    rw [(e _ _).2]; simp [freed_append, freed]
  · subst hr; right
    refine ⟨(e _ _).1, ?_⟩
    rw [(e _ _).2]; simp [freed_append, freed]
  · subst hr; right
    refine ⟨(e _ _).1, ?_⟩
    rw [(e _ _).2]; simp [freed_append, freed]
  · subst hr; right
    refine ⟨(e _ _).1, ?_⟩
    rw [(e _ _).2, fT]
  · subst hr; right
    refine ⟨(e _ _).1, ?_⟩
    rw [(e _ _).2, l.1, l.2.1, l.2.2.1, l.2.2.2.1, l.2.2.2.2, fT]
  · subst hr; right
    refine ⟨(e _ _).1, ?_⟩
    rw [(e _ _).2, l6.1, l6.2, l.1, l.2.1, l.2.2.1, l.2.2.2.1, l.2.2.2.2, fT]
  · subst hr; left
    refine ⟨rfl, ?_⟩
    show freed r6.trace = freed tr
    rw [l6.2, l.2.2.2.2, fT]

/-- C9, evaluated on the code: the device tree puts the interrupt line on
GPIO 0 and the other three lines on GPIOs 10, 11, 12; `fpc1020_parse_dt`
acquires all four and returns 0.  The first direction call then fails:
`fpc1020_hw_configure` returns `-ENODEV` having released lines 12, 11, 10 only.
Line 0 is not released. -/
theorem fpc1020_hw_configure_keeps_line_zero :
    let host : Host := { host_ok lines_irq0 with gpio_direction_output := fun _ _ _ => -22 }
    let r1 := fpc1020_parse_dt host fpc1020_data_zero []
    let r2 := fpc1020_hw_configure host r1.dev r1.trace
    r1.rc = 0 ∧
    [r1.dev.irq_gpio, r1.dev.rst_gpio, r1.dev.enable_vddio_gpio, r1.dev.enable_gpio] = [0, 12, 11, 10] ∧
    r2.rc = -ENODEV ∧
    freed r2.trace = [12, 11, 10] := by
  decide

/-! ## Theorems: the minors bitmap -/

/-- The scan answers a position between its start and its end. -/
theorem find_zero_from_bounds (addr : Nat) (count i : Nat) :
    i ≤ find_zero_from addr count i ∧ find_zero_from addr count i ≤ i + count := by
  induction count generalizing i with
  | zero => simp [find_zero_from]
  | succ n ih =>
    unfold find_zero_from
    split
    · have := ih (i + 1); omega
    · omega

/-- Every position the scan passed over is set. -/
theorem find_zero_from_passed (addr : Nat) (count i j : Nat)
    (hij : i ≤ j) (hj : j < find_zero_from addr count i) : addr.testBit j = true := by
  induction count generalizing i with
  | zero => simp [find_zero_from] at hj; omega
  | succ n ih =>
    unfold find_zero_from at hj
    split at hj
    · rename_i hset
      by_cases hji : j = i
      · subst hji; exact hset
      · exact ih (i + 1) (by omega) hj
    · omega

/-- A position answered short of the end is clear. -/
theorem find_zero_from_clear (addr : Nat) (count i : Nat)
    (h : find_zero_from addr count i < i + count) :
    addr.testBit (find_zero_from addr count i) = false := by
  induction count generalizing i with
  | zero => simp [find_zero_from] at h
  | succ n ih =>
    unfold find_zero_from at h ⊢
    split
    · rename_i hset
      rw [if_pos hset] at h
      exact ih (i + 1) (by omega)
    · rename_i hclear
      simpa using hclear

/-- The answer of `find_first_zero_bit` is at most `size`. -/
theorem find_first_zero_bit_le (addr size : Nat) : find_first_zero_bit addr size ≤ size := by
  have := (find_zero_from_bounds addr size 0).2
  simpa [find_first_zero_bit] using this

/-- Below `size`, the answer of `find_first_zero_bit` is a clear bit. -/
theorem find_first_zero_bit_clear (addr size : Nat) (h : find_first_zero_bit addr size < size) :
    addr.testBit (find_first_zero_bit addr size) = false := by
  unfold find_first_zero_bit at h ⊢
  exact find_zero_from_clear addr size 0 (by omega)

/-- Every bit below the answer of `find_first_zero_bit` is set. -/
theorem find_first_zero_bit_lowest (addr size j : Nat) (h : j < find_first_zero_bit addr size) :
    addr.testBit j = true :=
  find_zero_from_passed addr size 0 j (Nat.zero_le j) h

/-- On a bitmap whose first `size` bits are all set, `find_first_zero_bit`
answers `size`. -/
theorem find_first_zero_bit_full (addr size : Nat) (hfull : ∀ i, i < size → addr.testBit i = true) :
    find_first_zero_bit addr size = size := by
  rcases Nat.lt_or_ge (find_first_zero_bit addr size) size with h | h
  · have h1 := find_first_zero_bit_clear addr size h
    rw [hfull _ h] at h1
    exact absurd h1 (by simp)
  · exact Nat.le_antisymm (find_first_zero_bit_le addr size) h

/-- Bit `nr` is set by `set_bit` and every other bit is left as it was. -/
theorem testBit_set_bit (nr addr i : Nat) :
    (set_bit nr addr).testBit i = (decide (i = nr) || addr.testBit i) := by
  unfold set_bit
  rw [Nat.testBit_or, Nat.one_shiftLeft, Nat.testBit_two_pow, Bool.or_comm]
  by_cases h : i = nr
  · subst h; simp
  · have h2 : ¬ nr = i := fun e => h e.symm
    simp [h, h2]

/-! ## Theorems: `fpc1020_probe` and the registry -/

/-- The return value of `fpc1020_parse_dt` is 0 or `-ENODEV`. -/
theorem fpc1020_parse_dt_rc (host : Host) (d : fpc1020_data) (tr : Trace) :
    (fpc1020_parse_dt host d tr).rc = 0 ∨ (fpc1020_parse_dt host d tr).rc = -ENODEV := by
  unfold fpc1020_parse_dt
  simp only
  split_ifs <;> simp

/-- The return value of `fpc1020_hw_configure` is 0 or `-ENODEV`. -/
theorem fpc1020_hw_configure_rc (host : Host) (d : fpc1020_data) (tr : Trace) :
    (fpc1020_hw_configure host d tr).rc = 0 ∨ (fpc1020_hw_configure host d tr).rc = -ENODEV := by
  unfold fpc1020_hw_configure
  simp only
  split_ifs <;> simp [fpc1020_hw_configure_exit]

/-- What the second half of `fpc1020_probe` does to the registry: entered with
`rc = 0` it sets bit `d.minor` and adds the context to the list, whatever it
returns; entered with another `rc` it returns that `rc` and leaves bitmap and
list alone.  It returns 0 only when entered with `rc = 0`. -/
theorem fpc1020_probe_register_spec (cfg : Config) (host : Host) (rc : Int) (p : Ptr)
    (d : fpc1020_data) (k : Kernel) :
    ((fpc1020_probe_register cfg host rc p d k).self = p ∧
      (fpc1020_probe_register cfg host rc p d k).dev = some d) ∧
    (rc = 0 →
      (fpc1020_probe_register cfg host rc p d k).k.minors = set_bit d.minor k.minors ∧
      (fpc1020_probe_register cfg host rc p d k).k.device_list = p :: k.device_list) ∧
    (rc ≠ 0 →
      (fpc1020_probe_register cfg host rc p d k).k.minors = k.minors ∧
      (fpc1020_probe_register cfg host rc p d k).k.device_list = k.device_list ∧
      (fpc1020_probe_register cfg host rc p d k).rc = rc) ∧
    ((fpc1020_probe_register cfg host rc p d k).rc = 0 → rc = 0) := by
  unfold fpc1020_probe_register
  by_cases hrc : rc = 0
  · simp only [if_pos hrc]
    split_ifs with h5 h6 <;>
      simp [fpc1020_probe_exit_create_sysfs, fpc1020_probe_exit_hw_put, hrc]
  · simp [if_neg hrc, fpc1020_probe_exit_hw_put, hrc]

/-- What one run of `fpc1020_probe` does to the registry, with `m` the answer of
`find_first_zero_bit` on the bitmap before the run: a run that returns 0 has
set bit `m`, which lies below `N_SPI_MINORS`, and recorded `m` in its context;
every run either leaves bitmap and list alone or sets bit `m` and puts its
context on the list; with no bit below `N_SPI_MINORS` clear the run fails and
leaves both alone. -/
theorem fpc1020_probe_minors (cfg : Config) (host : Host) (k : Kernel) (r : ProbeResult)
    (hr : r = fpc1020_probe cfg host k) :
    (r.rc = 0 →
      find_first_zero_bit k.minors cfg.N_SPI_MINORS < cfg.N_SPI_MINORS ∧
      r.k.minors = set_bit (find_first_zero_bit k.minors cfg.N_SPI_MINORS) k.minors ∧
      ∃ d, r.dev = some d ∧ d.minor = find_first_zero_bit k.minors cfg.N_SPI_MINORS) ∧
    ((r.k.minors = k.minors ∧ r.k.device_list = k.device_list) ∨
      (find_first_zero_bit k.minors cfg.N_SPI_MINORS < cfg.N_SPI_MINORS ∧
       r.k.minors = set_bit (find_first_zero_bit k.minors cfg.N_SPI_MINORS) k.minors ∧
       r.k.device_list = r.self :: k.device_list)) ∧
    (¬ find_first_zero_bit k.minors cfg.N_SPI_MINORS < cfg.N_SPI_MINORS →
      r.k.minors = k.minors ∧ r.k.device_list = k.device_list ∧ r.rc ≠ 0 ∧
      (r.dev ≠ none → r.rc = -ENODEV)) := by
  have hE : (-ENODEV : Int) ≠ 0 := by decide
  have hM : (-ENOMEM : Int) ≠ 0 := by decide
  have spr : ∀ (rc : Int) (p : Ptr) (d : fpc1020_data) (k0 : Kernel),
      r = fpc1020_probe_register cfg host rc p d k0 →
      (r.self = p ∧ r.dev = some d) ∧
      (rc = 0 → r.k.minors = set_bit d.minor k0.minors ∧ r.k.device_list = p :: k0.device_list) ∧
      (rc ≠ 0 → r.k.minors = k0.minors ∧ r.k.device_list = k0.device_list ∧ r.rc = rc) ∧
      (r.rc = 0 → rc = 0) := by
    intro rc p d k0 h
    rw [h]
    exact fpc1020_probe_register_spec cfg host rc p d k0
  unfold fpc1020_probe at hr
  simp only at hr
  generalize h1 : fpc1020_parse_dt host _ _ = r1 at hr
  have hr1 : r1.rc = 0 ∨ r1.rc = -ENODEV := h1 ▸ fpc1020_parse_dt_rc host _ _
  generalize h2 : fpc1020_hw_configure host _ _ = r2 at hr
  have hr2 : r2.rc = 0 ∨ r2.rc = -ENODEV := h2 ▸ fpc1020_hw_configure_rc host _ _
  split_ifs at hr with h0 c1 c2 hm
  · subst hr; simp [hM]
  · subst hr
    have hne : r1.rc ≠ 0 := by omega
    rcases hr1 with h | h
    · exact absurd h hne
    · simp [h, hE]
  · subst hr
    have hne : r2.rc ≠ 0 := by omega
    rcases hr2 with h | h
    · exact absurd h hne
    · simp [h, hE]
  · obtain ⟨s1, s2, s3, s4⟩ := spr _ _ _ _ hr
    exact ⟨fun h => ⟨hm, (s2 (s4 h)).1, _, s1.2, rfl⟩,
      (Classical.em _).elim
        (fun h => Or.inr ⟨hm, (s2 h).1, by rw [s1.1]; exact (s2 h).2⟩)
        (fun h => Or.inl ⟨(s3 h).1, (s3 h).2.1⟩),
      fun hnm => absurd hm hnm⟩
  · obtain ⟨s1, s2, s3, s4⟩ := spr _ _ _ _ hr
    exact ⟨fun h => ⟨hm, (s2 (s4 h)).1, _, s1.2, rfl⟩,
      (Classical.em _).elim
        (fun h => Or.inr ⟨hm, (s2 h).1, by rw [s1.1]; exact (s2 h).2⟩)
        (fun h => Or.inl ⟨(s3 h).1, (s3 h).2.1⟩),
      fun hnm => absurd hm hnm⟩
  · obtain ⟨_, _, s3, s4⟩ := spr _ _ _ _ hr
    have t := s3 hE
    exact ⟨fun h => absurd (s4 h) hE, Or.inl ⟨t.1, t.2.1⟩,
      fun _ => ⟨t.1, t.2.1, by rw [t.2.2]; exact hE, fun _ => t.2.2⟩⟩

/-- A run of `fpc1020_probe` that allocated no context returns `-ENOMEM`. -/
theorem fpc1020_probe_no_context (cfg : Config) (host : Host) (k : Kernel) (r : ProbeResult)
    (hr : r = fpc1020_probe cfg host k) (hnone : r.dev = none) : r.rc = -ENOMEM := by
  unfold fpc1020_probe at hr
  simp only at hr
  generalize fpc1020_parse_dt host _ _ = r1 at hr
  generalize fpc1020_hw_configure host _ _ = r2 at hr
  split_ifs at hr
  · subst hr; rfl
  · subst hr; simp at hnone
  · subst hr; simp at hnone
  · rw [hr, (fpc1020_probe_register_spec cfg host _ _ _ _).1.2] at hnone
    simp at hnone
  · rw [hr, (fpc1020_probe_register_spec cfg host _ _ _ _).1.2] at hnone
    simp at hnone
  · rw [hr, (fpc1020_probe_register_spec cfg host _ _ _ _).1.2] at hnone
    simp at hnone

/-- C4, evaluated on the code: on an empty registry every step of the attach
succeeds up to `sysfs_create_group`, which fails with `-ENOMEM`; in a second
run it is the IRQ request that fails, with `-EBUSY`.  Both runs return the
error, and after both bit 0 of the bitmap is set and the context is on the
device list. -/
theorem fpc1020_probe_failure_keeps_registration :
    (let host : Host := { host_ok lines_fpc with sysfs_create_group := fun _ => -12 }
     let r := fpc1020_probe cfg32 host ⟨0, [], []⟩
     r.rc = -12 ∧ r.k.minors = 1 ∧ r.k.device_list = [⟨8192⟩]) ∧
    (let host : Host := { host_ok lines_fpc with devm_request_threaded_irq := fun _ _ => -16 }
     let r := fpc1020_probe cfg32 host ⟨0, [], []⟩
     r.rc = -16 ∧ r.k.minors = 1 ∧ r.k.device_list = [⟨8192⟩]) := by
  decide

/-- A run of `fpc1020_probe` clears no bit of the bitmap. -/
theorem fpc1020_probe_keeps_bits (cfg : Config) (host : Host) (k : Kernel) (i : Nat)
    (hi : (fpc1020_probe cfg host k).k.minors.testBit i = false) : k.minors.testBit i = false := by
  obtain ⟨_, p2, _⟩ := fpc1020_probe_minors cfg host k _ rfl
  rcases p2 with ⟨h, _⟩ | ⟨_, h, _⟩
  · rw [h] at hi; exact hi
  · rw [h, testBit_set_bit] at hi
    simp at hi
    exact hi.2

/-- The minors handed out by a sequence of attaches are pairwise distinct, and
each was clear in the bitmap the sequence started from. -/
theorem attach_all_fresh (cfg : Config) : ∀ (hosts : List Host) (k : Kernel),
    (attach_all cfg hosts k).1.Nodup ∧
      ∀ m, m ∈ (attach_all cfg hosts k).1 → k.minors.testBit m = false
  | [], k => by simp [attach_all]
  | host :: rest, k => by
    have ih := attach_all_fresh cfg rest (fpc1020_probe cfg host k).k
    obtain ⟨p1, _, _⟩ := fpc1020_probe_minors cfg host k _ rfl
    have mono := fpc1020_probe_keeps_bits cfg host k
    by_cases hrc : (fpc1020_probe cfg host k).rc = 0
    · obtain ⟨hm, hset, d, hd, hdm⟩ := p1 hrc
      have hout : (attach_all cfg (host :: rest) k).1
          = d.minor :: (attach_all cfg rest (fpc1020_probe cfg host k).k).1 := by
        simp only [attach_all, hrc, hd, if_true]
      rw [hout]
      have hnew : (fpc1020_probe cfg host k).k.minors.testBit d.minor = true := by
        rw [hset, hdm, testBit_set_bit]; simp
      refine ⟨List.nodup_cons.mpr ⟨?_, ih.1⟩, ?_⟩
      · intro hmem
        have := ih.2 _ hmem
        rw [hnew] at this
        exact absurd this (by simp)
      · intro m hmem
        rcases List.mem_cons.mp hmem with h | h
        · rw [h, hdm]; exact find_first_zero_bit_clear _ _ hm
        · exact mono m (ih.2 m h)
    · have hout : (attach_all cfg (host :: rest) k).1
          = (attach_all cfg rest (fpc1020_probe cfg host k).k).1 := by
        simp only [attach_all, hrc, if_false]
      rw [hout]
      exact ⟨ih.1, fun m hmem => mono m (ih.2 m hmem)⟩

/-- C5 as stated, refuted: all 32 slots of the bitmap are set and
`devm_kzalloc` returns NULL.  The attach fails with `-ENOMEM`, not with
`-ENODEV`; the bitmap is unchanged. -/
theorem fpc1020_probe_full_pool_enomem :
    (∀ i, i < cfg32.N_SPI_MINORS → (4294967295 : Nat).testBit i = true) ∧
    (fpc1020_probe cfg32 { host_ok lines_fpc with devm_kzalloc := fun _ => NULL }
      ⟨4294967295, [], []⟩).rc = -ENOMEM ∧
    (fpc1020_probe cfg32 { host_ok lines_fpc with devm_kzalloc := fun _ => NULL }
      ⟨4294967295, [], []⟩).rc ≠ -ENODEV ∧
    (fpc1020_probe cfg32 { host_ok lines_fpc with devm_kzalloc := fun _ => NULL }
      ⟨4294967295, [], []⟩).k.minors = 4294967295 := by
  decide

/-- C5, amended: identity allocation in `fpc1020_probe`.  An attach that returns
0 was assigned the lowest bit below `N_SPI_MINORS` that was clear in the
bitmap before the call, and the bitmap after the call differs from the one
before in exactly that bit, now set.  Over any sequence of attaches the
minors of the successful ones are pairwise distinct.  When the first
`N_SPI_MINORS` bits are all set, the attach fails and the bitmap is
unchanged; the error is `-ENODEV` when the context of the attach was
allocated, and `-ENOMEM` when its allocation failed. -/
theorem fpc1020_probe_identity (cfg : Config) (host : Host) (k : Kernel) (hosts : List Host) :
    ((fpc1020_probe cfg host k).rc = 0 →
      ∃ d, (fpc1020_probe cfg host k).dev = some d ∧
        d.minor < cfg.N_SPI_MINORS ∧
        k.minors.testBit d.minor = false ∧
        (∀ j, j < d.minor → k.minors.testBit j = true) ∧
        (fpc1020_probe cfg host k).k.minors = set_bit d.minor k.minors ∧
        (∀ i, (fpc1020_probe cfg host k).k.minors.testBit i
                = (decide (i = d.minor) || k.minors.testBit i))) ∧
    (attach_all cfg hosts k).1.Nodup ∧
    ((∀ i, i < cfg.N_SPI_MINORS → k.minors.testBit i = true) →
      (fpc1020_probe cfg host k).rc ≠ 0 ∧
      (fpc1020_probe cfg host k).k.minors = k.minors ∧
      ((fpc1020_probe cfg host k).dev ≠ none → (fpc1020_probe cfg host k).rc = -ENODEV) ∧
      ((fpc1020_probe cfg host k).dev = none → (fpc1020_probe cfg host k).rc = -ENOMEM)) := by
  obtain ⟨p1, _, p3⟩ := fpc1020_probe_minors cfg host k _ rfl
  refine ⟨?_, (attach_all_fresh cfg hosts k).1, ?_⟩
  · intro hrc
    obtain ⟨hm, hset, d, hd, hdm⟩ := p1 hrc
    refine ⟨d, hd, ?_, ?_, ?_, ?_, ?_⟩
    · rw [hdm]; exact hm
    · rw [hdm]; exact find_first_zero_bit_clear _ _ hm
    · intro j hj
      rw [hdm] at hj
      exact find_first_zero_bit_lowest _ _ j hj
    · rw [hdm]; exact hset
    · intro i
      rw [hset, hdm, testBit_set_bit]
  · intro hfull
    have hN := find_first_zero_bit_full k.minors cfg.N_SPI_MINORS hfull
    have t := p3 (by omega)
    exact ⟨t.2.2.1, t.1, t.2.2.2, fpc1020_probe_no_context cfg host k _ rfl⟩

/-- Witness for C5: on the bitmap `0b0111` a successful attach exists and is
handed a context; on the full 32-bit bitmap the attach, its context
allocated, returns `-ENODEV` and leaves the bitmap as it was. -/
theorem fpc1020_probe_identity_witness :
    ((fpc1020_probe cfg32 (host_ok lines_fpc) ⟨7, [], []⟩).rc = 0 ∧
      ∃ d, (fpc1020_probe cfg32 (host_ok lines_fpc) ⟨7, [], []⟩).dev = some d ∧
        d.minor < cfg32.N_SPI_MINORS) ∧
    ((∀ i, i < cfg32.N_SPI_MINORS → (4294967295 : Nat).testBit i = true) ∧
      (fpc1020_probe cfg32 (host_ok lines_fpc) ⟨4294967295, [], []⟩).dev ≠ none ∧
      (fpc1020_probe cfg32 (host_ok lines_fpc) ⟨4294967295, [], []⟩).rc = -ENODEV ∧
      (fpc1020_probe cfg32 (host_ok lines_fpc) ⟨4294967295, [], []⟩).k.minors = 4294967295) :=
  ⟨⟨by decide,
    ((fpc1020_probe_identity cfg32 (host_ok lines_fpc) ⟨7, [], []⟩ []).1 (by decide)).imp
      fun _ h => ⟨h.1, h.2.1⟩⟩,
   ⟨by decide, by decide,
    ((fpc1020_probe_identity cfg32 (host_ok lines_fpc) ⟨4294967295, [], []⟩ []).2.2 (by decide)).2.2.1
      (by decide),
    ((fpc1020_probe_identity cfg32 (host_ok lines_fpc) ⟨4294967295, [], []⟩ []).2.2 (by decide)).2.1⟩⟩

end NubiaSensors
